import Mathlib

/-!
Verification development for the EXIF MCP server (`src/index.js`).

The JavaScript source is shallowly embedded: pure string manipulation is
translated to executable Lean functions over `String` / `List Char`,
filesystem state is an explicit `Finset String` of existing file paths,
and external effects (the EXIF extraction library `exifr`, the filesystem
`rename` call, the `archiver` stream) are oracle inputs describing the
observable result of each call.  JavaScript numbers are modelled as `ℚ`
(exact floating-point behaviour such as NaN propagation is out of scope),
and `Date` values as a plain calendar record ordered by a monotone key.
-/

namespace ExifMcp

instance {ε α : Type} [DecidableEq ε] [DecidableEq α] : DecidableEq (Except ε α) := fun x y =>
  match x, y with
  | .ok a, .ok b => decidable_of_iff (a = b) ⟨congrArg _, Except.ok.inj⟩
  | .ok _, .error _ => isFalse (by intro h; cases h)
  | .error _, .ok _ => isFalse (by intro h; cases h)
  | .error a, .error b => decidable_of_iff (a = b) ⟨congrArg _, Except.error.inj⟩

/-! ## Small JavaScript semantics helpers -/

/-- ASCII part of the JavaScript regexp class `\s` (space, tab, LF, VT, FF, CR). -/
def isJsSpace (c : Char) : Bool :=
  c = ' ' || c = '\t' || c = '\n' || c = Char.ofNat 11 || c = Char.ofNat 12 || c = '\r'

/-- `a || b` for an optional string, with the JavaScript rule that the empty
string is falsy. -/
def jsStrOr (a : Option String) (b : String) : String :=
  match a with
  | some s => if s = "" then b else s
  | none => b

/-- Truthiness of an optional number: `undefined` and `0` are falsy. -/
def truthyRat (a : Option ℚ) : Bool :=
  match a with
  | some q => decide (q ≠ 0)
  | none => false

/-- `a || 0` for an optional number. -/
def jsRatOrZero (a : Option ℚ) : ℚ :=
  if truthyRat a then a.getD 0 else 0

/-- `a || null` for an optional number (used for the GPS altitude field). -/
def jsRatOrNull (a : Option ℚ) : Option ℚ :=
  if truthyRat a then a else none

/-! ## Char-list string operations

Lean core's `String.replace`, `String.splitOn`, … are defined by
well-founded recursion and do not reduce inside the kernel, so the string
operations the source uses are re-implemented structurally here. -/

/-- Is `pat` an occurrence somewhere inside `s`?  (JavaScript
`String.prototype.includes`.) -/
def listIncludes (pat : List Char) : List Char → Bool
  | [] => pat.isEmpty
  | c :: rest => pat.isPrefixOf (c :: rest) || listIncludes pat rest

/-- Replace the first occurrence of `pat` (JavaScript `replace` with a plain
string pattern). -/
def listReplaceFirst (pat rep : List Char) : List Char → List Char
  | [] => []
  | c :: rest =>
    if pat ≠ [] && pat.isPrefixOf (c :: rest) then rep ++ (c :: rest).drop pat.length
    else c :: listReplaceFirst pat rep rest

/-- Replace every (non-overlapping, left-to-right) occurrence of `pat`
(JavaScript `replace` with a `/…/g` literal-text regexp).  `fuel` bounds the
scan; each step consumes at least one character, so `s.length` suffices. -/
def listReplaceAllAux (pat rep : List Char) : Nat → List Char → List Char
  | _, [] => []
  | 0, s => s
  | fuel + 1, c :: rest =>
    if pat ≠ [] && pat.isPrefixOf (c :: rest) then
      rep ++ listReplaceAllAux pat rep fuel ((c :: rest).drop pat.length)
    else c :: listReplaceAllAux pat rep fuel rest

def strReplaceAll (s pat rep : String) : String :=
  ⟨listReplaceAllAux pat.data rep.data s.data.length s.data⟩

def strReplaceFirst (s pat rep : String) : String :=
  ⟨listReplaceFirst pat.data rep.data s.data⟩

def strIncludes (s pat : String) : Bool :=
  listIncludes pat.data s.data

/-- JavaScript `String.prototype.startsWith`. -/
def strStartsWith (s pre : String) : Bool :=
  pre.data.isPrefixOf s.data

/-- JavaScript `String.prototype.endsWith`. -/
def strEndsWith (s suf : String) : Bool :=
  suf.data.reverse.isPrefixOf s.data.reverse

/-- ASCII lower-casing (JavaScript `toLowerCase` on the extensions in play). -/
def strToLower (s : String) : String :=
  ⟨s.data.map Char.toLower⟩

/-- JavaScript `String.prototype.trim` (ASCII whitespace). -/
def strTrim (s : String) : String :=
  ⟨((s.data.dropWhile isJsSpace).reverse.dropWhile isJsSpace).reverse⟩

/-- Split on the separator `/` (all the splitting done by the source is on
path separators). -/
def splitOnSlash : List Char → List (List Char)
  | [] => [[]]
  | c :: rest =>
    if c = '/' then [] :: splitOnSlash rest
    else
      match splitOnSlash rest with
      | [] => [[c]]
      | seg :: segs => (c :: seg) :: segs

/-- Join segments with `/`. -/
def joinSlash : List (List Char) → List Char
  | [] => []
  | [s] => s
  | s :: rest => s ++ '/' :: joinSlash rest

/-- Left-pad a string with `0` up to width `w` (`String.prototype.padStart(w, '0')`). -/
def padZero (w : Nat) (s : String) : String :=
  if w ≤ s.length then s else ⟨List.replicate (w - s.length) '0'⟩ ++ s

/-! ## The path model (`path.resolve`, `path.dirname`, …, POSIX flavour) -/

/-- One step of POSIX path normalization: empty and `.` segments are dropped,
`..` pops the previous segment (a no-op at the root), anything else is kept. -/
def normStep (acc : List (List Char)) (seg : List Char) : List (List Char) :=
  if seg = [] || seg = ['.'] then acc
  else if seg = ['.', '.'] then acc.dropLast
  else acc ++ [seg]

/-- Node's `path.resolve(p)` against the working directory `cwd` (an absolute
normalized path): an absolute `p` is normalized on its own, a relative `p` is
appended to `cwd` first. -/
def resolvePath (cwd p : String) : String :=
  let raw := if strStartsWith p "/" then p.data else cwd.data ++ '/' :: p.data
  ⟨'/' :: joinSlash ((splitOnSlash raw).foldl normStep [])⟩

inductive PathError
  | invalidInput
  | pathTraversal
  | notFound (p : String)
  | unsupportedType (ext : String)
deriving DecidableEq, Repr

/-- The error message the source attaches to each validation failure. -/
def pathErrorMessage : PathError → String
  | .invalidInput => "Invalid file path provided"
  | .pathTraversal => "Path traversal detected - access denied"
  | .notFound p => "File not found: " ++ p
  | .unsupportedType e => "Unsupported file type: " ++ e

/-- `validateFilePath` (src/index.js:15-29): reject empty input, resolve to an
absolute path, then reject when the resolved string contains `..` or does not
start with the working directory. -/
def validateFilePath (cwd filepath : String) : Except PathError String :=
  if filepath = "" then .error .invalidInput
  else
    let absolutePath := resolvePath cwd filepath
    if strIncludes absolutePath ".." || !(strStartsWith absolutePath cwd) then
      .error .pathTraversal
    else .ok absolutePath

/-- Directory containment: `p` is the root itself or lives below `root/`.
This is the spec's notion of "lies within the authorized root", used to compare
against the validator's string-prefix test. -/
def withinRoot (root p : String) : Bool :=
  p == root || strStartsWith p (root ++ "/")

/-- Node's `path.basename`. -/
def basename (p : String) : String :=
  ⟨(splitOnSlash p.data).getLastD []⟩

/-- Node's `path.dirname`. -/
def dirname (p : String) : String :=
  match (splitOnSlash p.data).dropLast with
  | [] => "."
  | [[]] => "/"
  | segs => ⟨joinSlash segs⟩

/-- Position of the last `.` in a name, if any. -/
def lastDotIdx (l : List Char) : Option Nat :=
  match l.reverse.findIdx? (· = '.') with
  | none => none
  | some k => some (l.length - 1 - k)

/-- Node's `path.extname`: the suffix of the basename from its last dot, with a
dot at position 0 (a hidden file) not counting. -/
def extname (p : String) : String :=
  let b := (basename p).data
  match lastDotIdx b with
  | none => ""
  | some 0 => ""
  | some i => ⟨b.drop i⟩

/-- Node's `path.join(dir, name)` for the calls the source makes: `name` never
contains a separator or dot-segment there, so joining is plain concatenation. -/
def pathJoin (dir name : String) : String :=
  dir ++ "/" ++ name

/-- `path.basename(p, ext)`: the basename with a trailing `ext` stripped. -/
def basenameWithout (p ext : String) : String :=
  let b := basename p
  if strEndsWith b ext then ⟨b.data.take (b.data.length - ext.data.length)⟩ else b

/-- `validateImageFile` (src/index.js:37-44). -/
def allowedExts : List String :=
  [".jpg", ".jpeg", ".png", ".tiff", ".tif", ".heic", ".heif", ".webp", ".avif"]

def validateImageFile (filepath : String) : Except PathError Unit :=
  let ext := strToLower (extname filepath)
  if allowedExts.contains ext then .ok () else .error (.unsupportedType ext)

/-! ## Number and date rendering -/

/-- Decimal rendering of an integer. -/
def intRepr (i : Int) : String :=
  if i < 0 then "-" ++ Nat.repr i.natAbs else Nat.repr i.natAbs

/-- JavaScript `Number.prototype.toFixed(digits)`: round to `digits` decimal
places, ties away from zero (the float-rounding fine print is out of scope),
always printing exactly `digits` fractional digits. -/
def toFixed (digits : Nat) (q : ℚ) : String :=
  let p : Int := (10 : Int) ^ digits
  let d : Int := (q.den : Int)
  let scaled : Int := q.num * p
  let n : Int :=
    if 0 ≤ scaled then (2 * scaled + d) / (2 * d)
    else -((2 * (-scaled) + d) / (2 * d))
  let sign := if n < 0 then "-" else ""
  let a := n.natAbs
  if digits = 0 then sign ++ Nat.repr a
  else sign ++ Nat.repr (a / p.natAbs) ++ "." ++ padZero digits (Nat.repr (a % p.natAbs))

/-- Default JavaScript rendering of a number into a template string.  Integers
print without a fractional part; for non-integers the model prints up to 17
fractional digits with trailing zeros trimmed (shortest-float printing is
approximated). -/
def jsNumRepr (q : ℚ) : String :=
  if q.den = 1 then intRepr q.num
  else
    let sign := if q.num < 0 then "-" else ""
    let ip := q.num.natAbs / q.den
    let fr := (q.num.natAbs % q.den) * 10 ^ 17 / q.den
    let frs := ⟨(padZero 17 (Nat.repr fr)).data.reverse.dropWhile (· = '0') |>.reverse⟩
    sign ++ Nat.repr ip ++ "." ++ frs

/-- A calendar timestamp (the source's `Date` values, taken at whole seconds). -/
structure DateRec where
  year : Nat
  month : Nat
  day : Nat
  hour : Nat
  minute : Nat
  second : Nat
deriving DecidableEq, Repr

/-- A monotone stand-in for the epoch-milliseconds value that
`new Date(x) - new Date(y)` compares. -/
def DateRec.key (d : DateRec) : Nat :=
  ((((d.year * 13 + d.month) * 32 + d.day) * 25 + d.hour) * 61 + d.minute) * 61 + d.second

def pad2 (n : Nat) : String := padZero 2 (Nat.repr n)

def pad4 (n : Nat) : String := padZero 4 (Nat.repr n)

/-- `Date.prototype.toISOString` for a whole-second UTC timestamp. -/
def isoString (d : DateRec) : String :=
  pad4 d.year ++ "-" ++ pad2 d.month ++ "-" ++ pad2 d.day ++ "T" ++
    pad2 d.hour ++ ":" ++ pad2 d.minute ++ ":" ++ pad2 d.second ++ ".000Z"

/-- `formatDate` (src/index.js:945-950) uses `toLocaleString`, whose exact text
is locale-dependent; the model fixes one rendering.  No claim depends on it. -/
def formatDate (d : DateRec) : String :=
  Nat.repr d.month ++ "/" ++ Nat.repr d.day ++ "/" ++ Nat.repr d.year ++ ", " ++
    Nat.repr d.hour ++ ":" ++ pad2 d.minute ++ ":" ++ pad2 d.second

/-- `formatDateForRename` (src/index.js:844-855): plain-string `replace`, so
only the first occurrence of each token is substituted. -/
def formatDateForRename (d : DateRec) (format : String) : String :=
  strReplaceFirst (strReplaceFirst (strReplaceFirst format "YYYY" (Nat.repr d.year))
    "MM" (pad2 d.month)) "DD" (pad2 d.day)

/-- `formatTimeForRename` (src/index.js:858-869). -/
def formatTimeForRename (d : DateRec) (format : String) : String :=
  strReplaceFirst (strReplaceFirst (strReplaceFirst format "HH" (pad2 d.hour))
    "mm" (pad2 d.minute)) "ss" (pad2 d.second)

/-! ## The metadata record -/

/-- The normalized fields of one `exifr.parse` result that the source reads. -/
structure ExifRec where
  dateTimeOriginal : Option DateRec := none
  createDate : Option DateRec := none
  make : Option String := none
  model : Option String := none
  lensModel : Option String := none
  latitude : Option ℚ := none
  longitude : Option ℚ := none
  altitude : Option ℚ := none
  city : Option String := none
  country : Option String := none
  countryPrimary : Option String := none
deriving DecidableEq, Repr

/-- `exifData.DateTimeOriginal || exifData.CreateDate || new Date()`. -/
def resolvedDate (e : ExifRec) (now : DateRec) : DateRec :=
  match e.dateTimeOriginal with
  | some d => d
  | none =>
    match e.createDate with
    | some d => d
    | none => now

/-! ## The template renderer (`rename_by_exif`, src/index.js:430-495) -/

/-- `.replace(/\s+/g, '')`: delete every whitespace character. -/
def removeJsSpace (s : String) : String :=
  ⟨s.data.filter (fun c => !(isJsSpace c))⟩

/-- `.replace(/[\/\s]+/g, '-')`: each maximal run of slashes/whitespace becomes
a single hyphen. -/
def lensCleanGo (inRun : Bool) : List Char → List Char
  | [] => []
  | c :: rest =>
    if c = '/' || isJsSpace c then
      if inRun then lensCleanGo true rest else '-' :: lensCleanGo true rest
    else c :: lensCleanGo false rest

def lensClean (s : String) : String :=
  ⟨lensCleanGo false s.data⟩

/-- Location/city/country values (src/index.js:430-439): populated only when
both latitude and longitude are truthy. -/
def locationTriple (exifData : Option ExifRec) : String × String × String :=
  match exifData with
  | none => ("", "", "")
  | some e =>
    if truthyRat e.latitude && truthyRat e.longitude then
      (toFixed 4 (e.latitude.getD 0) ++ "_" ++ toFixed 4 (e.longitude.getD 0),
       jsStrOr e.city (jsStrOr e.city ""),
       jsStrOr e.country (jsStrOr e.countryPrimary ""))
    else ("", "", "")

/-- The template-variable substitution chain (src/index.js:446-489), in the
source's order.  `counter` renders zero-padded to three digits. -/
def renderTemplate (template : String) (exifData : Option ExifRec)
    (dateFormat timeFormat : String) (counter : Nat) (originalName : String)
    (location city country : String) (now : DateRec) : String :=
  match exifData with
  | some e =>
    let date := resolvedDate e now
    let dateStr := formatDateForRename date dateFormat
    let timeStr := formatTimeForRename date timeFormat
    let datetimeStr := dateStr ++ "_" ++ timeStr
    let camera := removeJsSpace (jsStrOr e.make "Unknown")
    let model := removeJsSpace (jsStrOr e.model "")
    let lens := lensClean (jsStrOr e.lensModel "")
    strReplaceAll (strReplaceAll (strReplaceAll (strReplaceAll (strReplaceAll
      (strReplaceAll (strReplaceAll (strReplaceAll (strReplaceAll (strReplaceAll
        (strReplaceAll template "{date}" dateStr)
        "{time}" timeStr) "{datetime}" datetimeStr) "{camera}" camera)
        "{model}" model) "{lens}" lens) "{location}" location) "{city}" city)
        "{country}" country) "{original}" originalName)
      "{counter}" (padZero 3 (Nat.repr counter))
  | none =>
    strReplaceAll (strReplaceAll (strReplaceAll (strReplaceAll (strReplaceAll
      (strReplaceAll (strReplaceAll (strReplaceAll (strReplaceAll (strReplaceAll
        (strReplaceAll template "{date}" "NoDate")
        "{time}" "NoTime") "{datetime}" "NoDateTime") "{camera}" "NoCamera")
        "{model}" "") "{lens}" "") "{location}" "") "{city}" "")
        "{country}" "") "{original}" originalName)
      "{counter}" (padZero 3 (Nat.repr counter))

/-- `/_{2,}/g → '_'`: collapse each run of two or more underscores to one. -/
def collapseUnd : List Char → List Char
  | [] => []
  | c :: rest =>
    match rest with
    | [] => [c]
    | d :: _ => if c = '_' && d = '_' then collapseUnd rest else c :: collapseUnd rest

/-- `/^_|_$/g → ''`: drop one leading and one trailing underscore. -/
def stripEdgeUnd (l : List Char) : List Char :=
  let l1 := match l with
    | '_' :: r => r
    | other => other
  match l1.reverse with
  | '_' :: r => r.reverse
  | _ => l1

/-- `/[^\w\-_.]/g → '_'`: every character outside `[A-Za-z0-9_\-.]` becomes an
underscore. -/
def sanitizeChar (c : Char) : Char :=
  if c.isAlphanum || c = '_' || c = '-' || c = '.' then c else '_'

/-- The filename clean-up chain (src/index.js:491-495), in source order. -/
def cleanupName (s : String) : String :=
  ⟨(stripEdgeUnd (collapseUnd s.data)).map sanitizeChar⟩

/-! ## The rename engine (src/index.js:390-573)

The filesystem is a finite set of existing file paths; `existsSync` is
membership.  `exifr.parse` and the possibility that `fs.rename` itself
rejects (the file vanished between validation and commit, a permission
error, …) are per-item oracles. -/

inductive OutcomeStatus
  | preview
  | pending
  | renamed
  | error
deriving DecidableEq, Repr

/-- One entry of the `results` array. -/
structure RenameOutcome where
  original : String
  new : Option String := none
  status : OutcomeStatus
  exifFound : Bool := false
  errorMsg : Option String := none
deriving DecidableEq, Repr

/-- One input file together with the oracles for its external calls. -/
structure RenameItem where
  filepath : String
  /-- Result of `exifr.parse`: a thrown message, or the (possibly null) record. -/
  parse : Except String (Option ExifRec) := .ok none
  /-- Whether the first `fs.rename` call of the commit succeeds when attempted
  (the move into the backup directory when `backup` is on, the direct move
  otherwise). -/
  renameOk : Bool := true
  /-- Whether the second `fs.rename` call of a backup commit (backup directory
  to final destination, src/index.js:521) succeeds.  When the first hop
  succeeded and this one rejects, the original is left stranded in the backup
  directory. -/
  rename2Ok : Bool := true
deriving DecidableEq, Repr

structure RenameConfig where
  cwd : String
  template : String := "{datetime}_{camera}_{original}"
  dateFormat : String := "YYYY-MM-DD"
  timeFormat : String := "HHmmss"
  dryRun : Bool := true
  backup : Bool := true
  counterStart : Nat := 1
  /-- The fresh timestamp-named directory chosen by `createSafeBackupDir`. -/
  backupDir : String := "/backup"
  now : DateRec := ⟨2024, 1, 1, 0, 0, 0⟩
deriving DecidableEq, Repr

structure BatchState where
  fs : Finset String
  results : List RenameOutcome := []
  counter : Nat
  /-- Ghost observer: set when some committed rename's destination already
  existed and differed from its source (i.e. the commit clobbered a file). -/
  overwrote : Bool := false
deriving DecidableEq

/-- A POSIX `rename(src, dst)` on the filesystem set, recording in the ghost
flag whether an existing file other than `src` itself was replaced. -/
def doRename (src dst : String) (st : BatchState) : BatchState :=
  { st with
    fs := insert dst (st.fs.erase src)
    overwrote := st.overwrote || (decide (dst ∈ st.fs) && dst != src) }

/-- Candidate paths tried by the collision loop (src/index.js:499-506):
first `dir/newName ++ ext`, then `dir/newName_k ++ ext` for `k = 1, 2, …`. -/
def candidatePath (dir newName ext : String) : Nat → String
  | 0 => pathJoin dir (newName ++ ext)
  | k + 1 => pathJoin dir (newName ++ "_" ++ Nat.repr (k + 1) ++ ext)

/-- The collision-probing loop: the first candidate that either does not exist
or equals the file's own path.  The source's loop is unbounded; `fs.card + 2`
attempts are modelled (more candidates than existing files, so in a run where
the distinct candidates are exhausted the source would loop forever — the
spec itself flags that as a known hazard).  `none` is the exhaustion case. -/
def probeFinalPath (fs : Finset String) (safePath dir newName ext : String) :
    Option String :=
  ((List.range (fs.card + 2)).map (candidatePath dir newName ext)).find?
    (fun c => !(decide (c ∈ fs)) || c == safePath)

/-- The per-item body of the `rename_by_exif` loop (src/index.js:416-538):
the `try` block, with the `catch` appending an error outcome.  Returns the
outcomes appended for this item, the new filesystem, the new counter, and the
ghost overwrite increment. -/
def renameItemStep (cfg : RenameConfig) (fs : Finset String) (counter : Nat)
    (item : RenameItem) : List RenameOutcome × BatchState :=
  let st0 : BatchState := { fs := fs, counter := counter }
  let errOut : String → List RenameOutcome × BatchState := fun msg =>
    ([{ original := basename item.filepath, status := .error, errorMsg := some msg }], st0)
  match validateFilePath cfg.cwd item.filepath with
  | .error e => errOut (pathErrorMessage e)
  | .ok safePath =>
    if safePath ∉ fs then errOut (pathErrorMessage (.notFound safePath))
    else
      match validateImageFile safePath with
      | .error e => errOut (pathErrorMessage e)
      | .ok _ =>
        match item.parse with
        | .error msg => errOut msg
        | .ok exifData =>
          let (location, city, country) := locationTriple exifData
          let dir := dirname safePath
          let ext := extname safePath
          let originalName := basenameWithout safePath ext
          let newName := cleanupName (renderTemplate cfg.template exifData
            cfg.dateFormat cfg.timeFormat counter originalName location city country cfg.now)
          match probeFinalPath fs safePath dir newName ext with
          | none => errOut "collision probing exhausted"
          | some finalPath =>
            let base : RenameOutcome :=
              { original := basename safePath
                new := some (basename finalPath)
                status := if cfg.dryRun then .preview else .pending
                exifFound := exifData.isSome }
            if cfg.dryRun then
              ([base], { st0 with counter := counter + 1 })
            else
              -- the commit (src/index.js:516-526).  A rename call that rejects
              -- does so after the 'pending' outcome was already pushed: the
              -- catch appends a second, error outcome for the same item and
              -- the counter increment at line 528 is skipped.
              let errPair : BatchState → List RenameOutcome × BatchState := fun st =>
                ([base, { original := basename item.filepath, status := .error
                          errorMsg := some "rename failed" }], st)
              if cfg.backup then
                let backupPath := pathJoin cfg.backupDir (basename safePath)
                if item.renameOk then
                  let stb := doRename safePath backupPath st0
                  if item.rename2Ok then
                    -- both hops succeed; the source flips the pushed outcome's
                    -- status to 'renamed' and increments the counter
                    ([{ base with status := .renamed }],
                      { doRename backupPath finalPath stb with counter := counter + 1 })
                  else
                    -- the second hop rejects after the first committed: the
                    -- original stays stranded in the backup directory
                    errPair stb
                else
                  -- the first hop rejects before changing anything
                  errPair st0
              else
                if item.renameOk then
                  ([{ base with status := .renamed }],
                    { doRename safePath finalPath st0 with counter := counter + 1 })
                else
                  errPair st0

/-- One loop iteration: run the item step and append its outcomes to the
report. -/
def batchStep (cfg : RenameConfig) (st : BatchState) (item : RenameItem) :
    BatchState :=
  let r := renameItemStep cfg st.fs st.counter item
  { r.2 with
    results := st.results ++ r.1
    overwrote := st.overwrote || r.2.overwrote }

/-- Fold the per-item step across the batch, accumulating the report. -/
def runRenameBatch (cfg : RenameConfig) (fs0 : Finset String)
    (items : List RenameItem) : BatchState :=
  items.foldl (batchStep cfg) { fs := fs0, counter := cfg.counterStart }

/-- Outcomes that the source counts by incrementing the template counter. -/
def isCounted (r : RenameOutcome) : Bool :=
  r.status == .preview || r.status == .renamed

/-! ## KML generation (src/index.js:741-835) -/

/-- `escapeXml` (src/index.js:828-835): five global replaces, ampersand first. -/
def escapeXml (str : String) : String :=
  strReplaceAll (strReplaceAll (strReplaceAll (strReplaceAll (strReplaceAll
    str "&" "&amp;") "<" "&lt;") ">" "&gt;") "\"" "&quot;")
    ⟨[Char.ofNat 39]⟩ "&apos;"

/-- One accepted tour photo (src/index.js:619-632). -/
structure TourPhoto where
  id : String
  number : Nat
  filepath : String
  filename : String
  latitude : ℚ
  longitude : ℚ
  altitude : ℚ
  datetime : DateRec
  camera : String
  lens : String
  thumbnailName : String
  fullImageName : Option String
deriving DecidableEq, Repr

/-- Concatenation of a list of strings (`Array.prototype.join('')`). -/
def strJoin : List String → String
  | [] => ""
  | s :: rest => s ++ strJoin rest

/-- The pieces pushed onto the `desc` array of a placemark
(src/index.js:778-787); camera and lens are interpolated verbatim inside the
CDATA block, only the filename/title/description go through `escapeXml`.
Each line pushed by the source is its own definition. -/
def descImgLine (photo : TourPhoto) : String :=
  "<img src=\"images/" ++ photo.thumbnailName ++ "\" width=\"" ++
    Nat.repr (Nat.min 400 800) ++ "\" /><br/>"

def descNumLine (photo : TourPhoto) : String :=
  "<b>Photo #" ++ Nat.repr photo.number ++ "</b><br/>"

def descDateLine (photo : TourPhoto) : String :=
  "Date: " ++ formatDate photo.datetime ++ "<br/>"

def descCamLine (photo : TourPhoto) : String :=
  "Camera: " ++ photo.camera ++ "<br/>"

def descLensLine (photo : TourPhoto) : String :=
  "Lens: " ++ photo.lens ++ "<br/>"

def descGpsLine (photo : TourPhoto) : String :=
  "GPS: " ++ toFixed 6 photo.latitude ++ ", " ++ toFixed 6 photo.longitude ++ "<br/>"

def descAltLine (photo : TourPhoto) : String :=
  "Altitude: " ++ toFixed 1 photo.altitude ++ "m<br/>"

def descParts (photo : TourPhoto) : List String :=
  ["<![CDATA["]
    ++ [descImgLine photo]
    ++ [descNumLine photo]
    ++ [descDateLine photo]
    ++ (if photo.camera ≠ "" then [descCamLine photo] else [])
    ++ (if photo.lens ≠ "" then [descLensLine photo] else [])
    ++ [descGpsLine photo]
    ++ (if 0 < photo.altitude then [descAltLine photo] else [])
    ++ ["]]>"]

def placemarkDesc (photo : TourPhoto) : String :=
  strJoin (descParts photo)

/-- The lines pushed for one photo placemark (src/index.js:773-798). -/
def placemarkLines (numberPhotos : Bool) (photo : TourPhoto) : List String :=
  [ "    <Placemark>",
    "      <name>" ++ (if numberPhotos then Nat.repr photo.number ++ ". " else "") ++
      escapeXml photo.filename ++ "</name>",
    "      <description>" ++ placemarkDesc photo ++ "</description>",
    "      <styleUrl>#photoIcon</styleUrl>",
    "      <Point>",
    "        <coordinates>" ++ jsNumRepr photo.longitude ++ "," ++
      jsNumRepr photo.latitude ++ "," ++ jsNumRepr photo.altitude ++ "</coordinates>",
    "      </Point>",
    "      <TimeStamp>",
    "        <when>" ++ isoString photo.datetime ++ "</when>",
    "      </TimeStamp>",
    "    </Placemark>" ]

def styleLines : List String :=
  [ "  <Style id=\"photoIcon\">",
    "    <IconStyle>",
    "      <Icon>",
    "        <href>http://maps.google.com/mapfiles/kml/paddle/red-circle.png</href>",
    "      </Icon>",
    "      <hotSpot x=\"0.5\" y=\"0\" xunits=\"fraction\" yunits=\"fraction\"/>",
    "    </IconStyle>",
    "  </Style>",
    "  <Style id=\"pathStyle\">",
    "    <LineStyle>",
    "      <color>ff0000ff</color>",
    "      <width>3</width>",
    "    </LineStyle>",
    "  </Style>" ]

/-- The path placemark (src/index.js:803-819), emitted when requested and
there are at least two photos. -/
def pathPlacemarkLines (photoData : List TourPhoto) : List String :=
  [ "  <Placemark>",
    "    <name>Photo Path</name>",
    "    <description>The path taken between photos</description>",
    "    <styleUrl>#pathStyle</styleUrl>",
    "    <LineString>",
    "      <tessellate>1</tessellate>",
    "      <coordinates>" ]
    ++ photoData.map (fun photo => "        " ++ jsNumRepr photo.longitude ++ "," ++
        jsNumRepr photo.latitude ++ "," ++ jsNumRepr photo.altitude)
    ++ [ "      </coordinates>",
    "    </LineString>",
    "  </Placemark>" ]

/-- The full line array pushed by `generateKML` (src/index.js:741-824). -/
def kmlLines (photoData : List TourPhoto) (title description : String)
    (drawPath numberPhotos : Bool) : List String :=
  [ "<?xml version=\"1.0\" encoding=\"UTF-8\"?>",
    "<kml xmlns=\"http://www.opengis.net/kml/2.2\">",
    "<Document>",
    "  <name>" ++ escapeXml title ++ "</name>" ]
    ++ (if description ≠ "" then
        ["  <description>" ++ escapeXml description ++ "</description>"] else [])
    ++ styleLines
    ++ [ "  <Folder>", "    <name>Photos</name>" ]
    ++ (photoData.map (placemarkLines numberPhotos)).flatten
    ++ [ "  </Folder>" ]
    ++ (if drawPath && photoData.length > 1 then pathPlacemarkLines photoData else [])
    ++ [ "</Document>", "</kml>" ]

/-- `generateKML`: the line array joined with newlines (`kml.join('\n')`). -/
def generateKML (photoData : List TourPhoto) (title description : String)
    (drawPath numberPhotos : Bool) : String :=
  String.intercalate "\n" (kmlLines photoData title description drawPath numberPhotos)

/-! ## The tour assembler (src/index.js:576-724) -/

/-- One tour input file with its extraction oracle. -/
structure TourItem where
  filepath : String
  /-- Result of `exifr.parse`: thrown message, or the (possibly null) record. -/
  parse : Except String (Option ExifRec) := .ok none
deriving DecidableEq, Repr

/-- The per-file collection step (src/index.js:603-640): any validation or
extraction error is caught and the file silently skipped; a file is accepted
only when the record and both coordinates are truthy.  The sequence number is
assigned here, from the running `photoNumber`, before any sorting. -/
def collectStep (cwd : String) (fs : Finset String) (includeFullImages : Bool)
    (now : DateRec) (acc : List TourPhoto × Nat) (item : TourItem) :
    List TourPhoto × Nat :=
  let (photos, photoNumber) := acc
  match validateFilePath cwd item.filepath with
  | .error _ => acc
  | .ok safePath =>
    if safePath ∉ fs then acc
    else
      match validateImageFile safePath with
      | .error _ => acc
      | .ok _ =>
        match item.parse with
        | .error _ => acc
        | .ok none => acc
        | .ok (some e) =>
          if truthyRat e.latitude && truthyRat e.longitude then
            let photoId := "photo_" ++ padZero 3 (Nat.repr photoNumber)
            (photos ++
              [{ id := photoId
                 number := photoNumber
                 filepath := safePath
                 filename := basename safePath
                 latitude := e.latitude.getD 0
                 longitude := e.longitude.getD 0
                 altitude := jsRatOrZero e.altitude
                 datetime := resolvedDate e now
                 camera := strTrim (jsStrOr e.make "" ++ " " ++ jsStrOr e.model "")
                 lens := jsStrOr e.lensModel ""
                 thumbnailName := photoId ++ "_thumb.jpg"
                 fullImageName :=
                   if includeFullImages then some (photoId ++ "_full.jpg") else none }],
             photoNumber + 1)
          else acc

def collectPhotos (cwd : String) (fs : Finset String) (includeFullImages : Bool)
    (now : DateRec) (items : List TourItem) : List TourPhoto :=
  (items.foldl (collectStep cwd fs includeFullImages now) ([], 1)).1

/-- Stable insertion preserving input order among equal keys — the behaviour
of `Array.prototype.sort` with the numeric datetime comparator
(src/index.js:652). -/
def sortInsert (p : TourPhoto) : List TourPhoto → List TourPhoto
  | [] => [p]
  | q :: qs =>
    if p.datetime.key ≤ q.datetime.key then p :: q :: qs else q :: sortInsert p qs

def sortPhotos (l : List TourPhoto) : List TourPhoto :=
  l.foldr sortInsert []

/-- A tool response payload: text plus the error flag. -/
structure Response where
  text : String
  isError : Bool := false
deriving DecidableEq, Repr

def errorResponse (msg : String) : Response :=
  { text := "Error: " ++ msg, isError := true }

structure TourArgs where
  items : List TourItem
  outputPath : String
  title : String := "My Photo Journey"
  description : String := ""
  thumbnailSize : Nat := 800
  includeFullImages : Bool := false
  drawPath : Bool := true
  numberPhotos : Bool := true
deriving DecidableEq, Repr

/-- The textual success summary (src/index.js:704-716).  `sizeBytes` is the
archive size reported by `stat`; the MB figure is approximated with natural
division (JavaScript prints the float quotient). -/
def tourSummary (title : String) (photoData : List TourPhoto)
    (drawPath numberPhotos : Bool) (sizeBytes : Nat) (outputPath : String) : String :=
  "Photo Tour KMZ Created! Title: " ++ title ++
    " Photos with GPS: " ++ Nat.repr photoData.length ++
    " Path: " ++ (if drawPath then "Yes" else "No") ++
    " Numbered: " ++ (if numberPhotos then "Yes" else "No") ++
    " File size: " ++ Nat.repr (sizeBytes / 1024 / 1024) ++ "MB" ++
    " Output: " ++ basename outputPath ++ " Journey Timeline: " ++
    strJoin ((photoData.take 5).map (fun p =>
      " " ++ Nat.repr p.number ++ ". " ++ formatDate p.datetime ++ " - " ++ p.filename)) ++
    (if photoData.length > 5 then
      " ... and " ++ Nat.repr (photoData.length - 5) ++ " more photos" else "")

/-- Outcome of one `create_photo_tour_kmz` invocation, with ghost observers
for the scratch workspace. -/
structure TourResult where
  response : Response
  /-- Whether the `.kmz_temp_…` scratch directory was created. -/
  tempDirCreated : Bool
  /-- Whether `removeDir(tempDir)` ran. -/
  tempDirRemoved : Bool
deriving DecidableEq, Repr

/-- The `create_photo_tour_kmz` handler (src/index.js:576-724).  `archiveOk`
is the oracle for the archiver/write-stream promise: when it rejects, the
`await` throws past the `removeDir` call into the top-level catch, so the
scratch directory is left behind.  Thumbnail generation failures are caught
per photo and ignored by the source, so they do not appear in the model. -/
def create_photo_tour_kmz (cwd : String) (fs : Finset String) (now : DateRec)
    (args : TourArgs) (archiveOk : Bool) (sizeBytes : Nat) : TourResult :=
  if args.items.isEmpty then
    { response := errorResponse "filepaths must be a non-empty array"
      tempDirCreated := false, tempDirRemoved := false }
  else
    match validateFilePath cwd args.outputPath with
    | .error e =>
      { response := errorResponse (pathErrorMessage e)
        tempDirCreated := false, tempDirRemoved := false }
    | .ok safeOutputPath =>
      if !(strEndsWith safeOutputPath ".kmz") then
        { response := errorResponse "Output path must end with .kmz extension"
          tempDirCreated := false, tempDirRemoved := false }
      else
        let photoData := collectPhotos cwd fs args.includeFullImages now args.items
        if photoData.isEmpty then
          { response := { text := "No photos with GPS data found in the provided files." }
            tempDirCreated := false, tempDirRemoved := false }
        else
          let sorted := sortPhotos photoData
          let _kml := generateKML sorted args.title args.description
            args.drawPath args.numberPhotos
          -- mkdir tempDir; write doc.kml; thumbnails; then package and clean up
          { response :=
              if archiveOk then
                { text := tourSummary args.title sorted args.drawPath
                    args.numberPhotos sizeBytes safeOutputPath }
              else errorResponse "archive stream error"
            tempDirCreated := true
            tempDirRemoved := archiveOk }

/-! ## The `parse_exif` handler (src/index.js:262-296) -/

structure ParseOptions where
  gps : Option Bool := none
  thumbnail : Option Bool := none
  xmp : Option Bool := none
  icc : Option Bool := none
  iptc : Option Bool := none
deriving DecidableEq, Repr

/-- The body of the `parse_exif` case.  After destructuring the arguments and
building `parseOptions`, the source evaluates `exifr.parse(safePath, …)` —
but no `safePath` binding exists anywhere in that case block (the validation
lines present in every other handler are missing), so the reference itself
throws a ReferenceError before any I/O happens. -/
def parse_exif_body (_filepath : String) (_options : ParseOptions) :
    Except String Response :=
  .error "safePath is not defined"

/-- The handler as observed by a client: the top-level catch
(src/index.js:729-737) turns the thrown error into an error-flagged payload. -/
def parse_exif (filepath : String) (options : ParseOptions) : Response :=
  match parse_exif_body filepath options with
  | .ok r => r
  | .error msg => errorResponse msg

/-! ## The `get_gps_coordinates` handler (src/index.js:354-388) -/

structure GpsData where
  latitude : ℚ
  longitude : ℚ
  altitude : Option ℚ := none
deriving DecidableEq, Repr

/-- The `coordinates` object serialized into the reply. -/
structure GpsCoordinates where
  latitude : ℚ
  longitude : ℚ
  altitude : Option ℚ
deriving DecidableEq, Repr

inductive GpsResponse
  | errorResp (msg : String)
  | noData (filename : String)
  | coords (filename : String) (coordinates : GpsCoordinates) (mapsUrl : String)
deriving DecidableEq, Repr

/-- The handler: validate, run `exifr.gps` (oracle), then build the reply;
the altitude field is `gpsData.altitude || null`. -/
def get_gps_coordinates (cwd : String) (fs : Finset String) (filepath : String)
    (gpsOracle : Option GpsData) : GpsResponse :=
  match validateFilePath cwd filepath with
  | .error e => .errorResp (pathErrorMessage e)
  | .ok safePath =>
    if safePath ∉ fs then .errorResp (pathErrorMessage (.notFound safePath))
    else
      match validateImageFile safePath with
      | .error e => .errorResp (pathErrorMessage e)
      | .ok _ =>
        match gpsOracle with
        | none => .noData (basename safePath)
        | some g =>
          .coords (basename safePath)
            { latitude := g.latitude
              longitude := g.longitude
              altitude := jsRatOrNull g.altitude }
            ("https://www.google.com/maps?q=" ++ jsNumRepr g.latitude ++ "," ++
              jsNumRepr g.longitude)

/-! ## Concrete fixtures used by witnesses and counterexamples -/

/-- A record carrying only a camera make, rendering as `p` under `{camera}`. -/
def recCamP : ExifRec := { make := some "p" }

/-- A record whose latitude is exactly zero (equator). -/
def recZeroLat : ExifRec := { latitude := some 0, longitude := some 5 }

def nowFix : DateRec := ⟨2024, 1, 1, 0, 0, 0⟩

/-- Non-dry-run, no-backup rename configuration over `/w` with the
`{camera}` template. -/
def cfgCam : RenameConfig :=
  { cwd := "/w", template := "{camera}", dryRun := false, backup := false }

/-- Dry-run configuration with default template. -/
def cfgDry : RenameConfig := { cwd := "/w" }

/-- Chain batch: the first item renames `/w/a.jpg` to `/w/p.jpg`; the second
item is that result itself (same camera make, so it self-collides). -/
def itemsChain : List RenameItem :=
  [ { filepath := "/w/a.jpg", parse := .ok (some recCamP) },
    { filepath := "/w/p.jpg", parse := .ok (some recCamP) } ]

/-- A single valid item whose filesystem rename call rejects. -/
def itemsRenameFail : List RenameItem :=
  [ { filepath := "/w/a.jpg", parse := .ok (some recCamP), renameOk := false } ]

/-- A single item naming a file that does not exist. -/
def itemsMissing : List RenameItem := [ { filepath := "/w/missing.jpg" } ]

/-- Non-dry-run configuration with the default backup mode on. -/
def cfgBk : RenameConfig :=
  { cwd := "/w", template := "{camera}", dryRun := false, backup := true
    backupDir := "/w/bk" }

/-- Backup-overwrite batch: two files with the same basename from different
directories.  The first item's second hop fails, stranding its original in
the backup directory; the second item's first hop then targets that same
backup path. -/
def itemsBk : List RenameItem :=
  [ { filepath := "/w/d1/x.jpg", parse := .ok (some recCamP)
      renameOk := true, rename2Ok := false },
    { filepath := "/w/d2/x.jpg", parse := .ok (some recCamP) } ]

def fsBk : Finset String := {"/w/d1/x.jpg", "/w/d2/x.jpg"}

/-- Two geotagged tour inputs whose capture times are in reverse of the input
order (the first is the later photo). -/
def recTourLate : ExifRec :=
  { latitude := some 1, longitude := some 1,
    dateTimeOriginal := some ⟨2024, 7, 9, 10, 0, 0⟩ }

def recTourEarly : ExifRec :=
  { latitude := some 1, longitude := some 1,
    dateTimeOriginal := some ⟨2024, 7, 9, 8, 0, 0⟩ }

def itemsTour : List TourItem :=
  [ { filepath := "/w/a.jpg", parse := .ok (some recTourLate) },
    { filepath := "/w/b.jpg", parse := .ok (some recTourEarly) } ]

def fsTour : Finset String := {"/w/a.jpg", "/w/b.jpg"}

def argsTour : TourArgs := { items := itemsTour, outputPath := "/w/tour.kmz" }

/-- A tour photo whose camera string contains a literal `<`. -/
def photoAngle : TourPhoto :=
  { id := "photo_001", number := 1, filepath := "/w/x.jpg", filename := "x.jpg",
    latitude := 1, longitude := 2, altitude := 0,
    datetime := ⟨2024, 7, 9, 10, 0, 0⟩,
    camera := "A<B", lens := "", thumbnailName := "photo_001_thumb.jpg",
    fullImageName := none }

/-- A tour item with a zero-latitude record. -/
def itemZeroLat : TourItem := { filepath := "/w/g.jpg", parse := .ok (some recZeroLat) }

/-- A tour photo with a non-empty lens string. -/
def photoLensFix : TourPhoto :=
  { id := "photo_001", number := 1, filepath := "/w/x.jpg", filename := "x.jpg",
    latitude := 1, longitude := 2, altitude := 0,
    datetime := ⟨2024, 7, 9, 10, 0, 0⟩,
    camera := "", lens := "RF 50mm", thumbnailName := "photo_001_thumb.jpg",
    fullImageName := none }

/-! ## Helper lemmas -/

theorem validateFilePath_ok_prefix {cwd p q : String}
    (h : validateFilePath cwd p = .ok q) : strStartsWith q cwd = true := by
  unfold validateFilePath at h
  by_cases hp : p = ""
  · simp [hp] at h
  · simp only [if_neg hp] at h
    by_cases hc : (strIncludes (resolvePath cwd p) ".." ||
        !(strStartsWith (resolvePath cwd p) cwd)) = true
    · simp [hc] at h
    · rw [if_neg hc] at h
      injection h with h'
      subst h'
      simp only [Bool.or_eq_true, Bool.not_eq_true'] at hc
      push_neg at hc
      simpa using hc.2

theorem validateFilePath_marker_rejects {cwd p : String} (hp : p ≠ "")
    (hdot : strIncludes (resolvePath cwd p) ".." = true) :
    validateFilePath cwd p = .error .pathTraversal := by
  unfold validateFilePath
  simp [hp, hdot]

theorem probeFinalPath_fresh_or_self {fs : Finset String} {sp dir nn ext c : String}
    (h : probeFinalPath fs sp dir nn ext = some c) : c ∉ fs ∨ c = sp := by
  have hp := List.find?_some h
  simp only [Bool.or_eq_true, Bool.not_eq_true', decide_eq_false_iff_not,
    beq_iff_eq] at hp
  exact hp

theorem renameItemStep_counter (cfg : RenameConfig) (fs : Finset String)
    (counter : Nat) (item : RenameItem) :
    (renameItemStep cfg fs counter item).2.counter =
      counter + (((renameItemStep cfg fs counter item).1).filter isCounted).length := by
  dsimp only [renameItemStep]
  repeat' split
  all_goals simp_all [isCounted, doRename]

theorem renameItemStep_overwrote (cfg : RenameConfig) (hb : cfg.backup = false)
    (fs : Finset String) (counter : Nat) (item : RenameItem) :
    (renameItemStep cfg fs counter item).2.overwrote = false := by
  dsimp only [renameItemStep]
  repeat' split
  all_goals try simp_all [doRename]
  all_goals intro hmem
  all_goals rcases probeFinalPath_fresh_or_self (by assumption) with h | h
  all_goals first
  | exact absurd hmem h
  | exact h

theorem batchStep_counter_eq (cfg : RenameConfig) (st : BatchState) (item : RenameItem) :
    (batchStep cfg st item).counter =
      st.counter + (((renameItemStep cfg st.fs st.counter item).1).filter isCounted).length := by
  dsimp [batchStep]
  rw [renameItemStep_counter]

theorem batchStep_results_eq (cfg : RenameConfig) (st : BatchState) (item : RenameItem) :
    (batchStep cfg st item).results =
      st.results ++ (renameItemStep cfg st.fs st.counter item).1 := by
  dsimp [batchStep]

theorem runRenameBatch_counter_aux (cfg : RenameConfig) :
    ∀ (items : List RenameItem) (st : BatchState),
      (items.foldl (batchStep cfg) st).counter + (st.results.filter isCounted).length =
        st.counter + ((items.foldl (batchStep cfg) st).results.filter isCounted).length := by
  intro items
  induction items with
  | nil => intro st; simp
  | cons i is ih =>
    intro st
    simp only [List.foldl_cons]
    have hc := batchStep_counter_eq cfg st i
    have hr := batchStep_results_eq cfg st i
    have ihs := ih (batchStep cfg st i)
    rw [hr] at ihs
    simp only [List.filter_append, List.length_append] at ihs
    omega

theorem runRenameBatch_overwrote_aux (cfg : RenameConfig) (hb : cfg.backup = false) :
    ∀ (items : List RenameItem) (st : BatchState), st.overwrote = false →
      (items.foldl (batchStep cfg) st).overwrote = false := by
  intro items
  induction items with
  | nil => intro st h; simpa using h
  | cons i is ih =>
    intro st h
    simp only [List.foldl_cons]
    apply ih
    dsimp [batchStep]
    rw [renameItemStep_overwrote cfg hb, h]
    rfl

theorem collectStep_skip {env : TourItem} {e : ExifRec}
    (hp : env.parse = .ok (some e))
    (hz : e.latitude = some 0 ∨ e.longitude = some 0)
    (cwd : String) (fs : Finset String) (incl : Bool) (now : DateRec)
    (acc : List TourPhoto × Nat) :
    collectStep cwd fs incl now acc env = acc := by
  obtain ⟨photos, n⟩ := acc
  rcases hz with hz | hz
  all_goals dsimp [collectStep]
  all_goals repeat' split
  all_goals simp_all [truthyRat]

theorem tour_cleanup_aux (cwd : String) (fs : Finset String) (now : DateRec)
    (args : TourArgs) (archiveOk : Bool) (sizeBytes : Nat) :
    (create_photo_tour_kmz cwd fs now args archiveOk sizeBytes).tempDirCreated = true →
      (create_photo_tour_kmz cwd fs now args archiveOk sizeBytes).tempDirRemoved = archiveOk := by
  unfold create_photo_tour_kmz
  repeat' split
  all_goals try simp
  all_goals intro h
  all_goals split at h
  all_goals simp_all

theorem gps_alt_aux (cwd : String) (fs : Finset String) (fp : String) (g : GpsData)
    (hz : g.altitude = some 0 ∨ g.altitude = none) :
    ∀ fn c url, get_gps_coordinates cwd fs fp (some g) = .coords fn c url →
      c.altitude = none := by
  intro fn c url h
  rcases hz with hz | hz
  all_goals dsimp [get_gps_coordinates] at h
  all_goals repeat' split at h
  all_goals simp_all [jsRatOrNull, truthyRat]
  all_goals obtain ⟨h1, h2, h3⟩ := h
  all_goals rw [← h2]

theorem strJoin_append : ∀ xs ys : List String,
    strJoin (xs ++ ys) = strJoin xs ++ strJoin ys := by
  intro xs ys
  induction xs with
  | nil => simp [strJoin]
  | cons a as ih => simp [strJoin, ih, String.append_assoc]

theorem strJoin_factor (l1 l2 : List String) (x : String) :
    strJoin (l1 ++ x :: l2) = strJoin l1 ++ (x ++ strJoin l2) := by
  rw [strJoin_append]
  rfl

theorem kmlLines_name (pd : List TourPhoto) (t d : String) (dp np : Bool) :
    (kmlLines pd t d dp np)[3]? = some ("  <name>" ++ escapeXml t ++ "</name>") := by
  simp [kmlLines]

theorem kmlLines_description (pd : List TourPhoto) (t d : String) (dp np : Bool)
    (hd : d ≠ "") :
    (kmlLines pd t d dp np)[4]? =
      some ("  <description>" ++ escapeXml d ++ "</description>") := by
  simp [kmlLines, hd]

theorem placemarkDesc_camera_verbatim (photo : TourPhoto) (h : photo.camera ≠ "") :
    ∃ pre post,
      placemarkDesc photo = pre ++ ("Camera: " ++ photo.camera ++ "<br/>") ++ post := by
  refine ⟨strJoin ["<![CDATA[", descImgLine photo, descNumLine photo, descDateLine photo],
    strJoin ((if photo.lens ≠ "" then [descLensLine photo] else []) ++ [descGpsLine photo] ++
      (if 0 < photo.altitude then [descAltLine photo] else []) ++ ["]]>"]), ?_⟩
  have hsplit : descParts photo =
      ["<![CDATA[", descImgLine photo, descNumLine photo, descDateLine photo] ++
        descCamLine photo ::
          ((if photo.lens ≠ "" then [descLensLine photo] else []) ++ [descGpsLine photo] ++
            (if 0 < photo.altitude then [descAltLine photo] else []) ++ ["]]>"]) := by
    simp [descParts, h]
  rw [placemarkDesc, hsplit, strJoin_factor]
  simp [descCamLine, String.append_assoc]

theorem placemarkDesc_lens_verbatim (photo : TourPhoto) (h : photo.lens ≠ "") :
    ∃ pre post,
      placemarkDesc photo = pre ++ ("Lens: " ++ photo.lens ++ "<br/>") ++ post := by
  refine ⟨strJoin (["<![CDATA[", descImgLine photo, descNumLine photo, descDateLine photo] ++
      (if photo.camera ≠ "" then [descCamLine photo] else [])),
    strJoin ([descGpsLine photo] ++
      (if 0 < photo.altitude then [descAltLine photo] else []) ++ ["]]>"]), ?_⟩
  have hsplit : descParts photo =
      (["<![CDATA[", descImgLine photo, descNumLine photo, descDateLine photo] ++
        (if photo.camera ≠ "" then [descCamLine photo] else [])) ++
        descLensLine photo ::
          ([descGpsLine photo] ++
            (if 0 < photo.altitude then [descAltLine photo] else []) ++ ["]]>"]) := by
    simp [descParts, h]
  rw [placemarkDesc, hsplit, strJoin_factor]
  simp [descLensLine, String.append_assoc]

/-! ## Claim theorems -/

/-- Claim C1, counterexample: the validator's containment check is a raw
string-prefix test.  With working directory `/a`, the input `/ab/x` resolves
to `/ab/x`, contains no parent marker, and starts with the string `/a`, so it
is accepted — yet `/ab/x` does not lie within the directory `/a`.  The claim
"for every accepted input the returned path lies within the authorized root"
is therefore false. -/
theorem C1_prefix_check_escapes_root :
    validateFilePath "/a" "/ab/x" = .ok "/ab/x" ∧ withinRoot "/a" "/ab/x" = false := by
  decide

/-- Claim C1 (amended): every accepted input's returned path has the working
directory as a *string prefix* (which is weaker than directory containment,
see the counterexample), and any non-empty input whose resolved string
contains the parent-directory marker `..` is rejected with the path-traversal
error. -/
theorem C1_validator_prefix_and_marker :
    (∀ cwd p q, validateFilePath cwd p = .ok q → strStartsWith q cwd = true) ∧
    (∀ cwd p, p ≠ "" → strIncludes (resolvePath cwd p) ".." = true →
      validateFilePath cwd p = .error .pathTraversal) :=
  ⟨fun _ _ _ h => validateFilePath_ok_prefix h,
   fun _ _ hp hdot => validateFilePath_marker_rejects hp hdot⟩

/-- Claim C1, witness: the amended theorem applied at concrete inputs. -/
theorem C1_witness :
    strStartsWith "/w/a.jpg" "/w" = true ∧
      validateFilePath "/a" "b..c" = .error .pathTraversal :=
  ⟨C1_validator_prefix_and_marker.1 "/w" "a.jpg" "/w/a.jpg" (by decide),
   C1_validator_prefix_and_marker.2 "/a" "b..c" (by decide) (by decide)⟩

/-- Claim C2: in a non-dry-run batch the source pushes the `pending` outcome
*before* performing the filesystem rename; when the rename call itself
rejects, the catch block appends a second, `error` outcome for the same item.
A batch of one valid item whose rename fails therefore emits two outcomes,
not one — the per-file report is not one-per-input. -/
theorem C2_rename_failure_double_outcome :
    itemsRenameFail.length = 1 ∧
    (runRenameBatch cfgCam {"/w/a.jpg"} itemsRenameFail).results.length = 2 ∧
    ((runRenameBatch cfgCam {"/w/a.jpg"} itemsRenameFail).results.map
      (fun r => r.status)) = [.pending, .error] := by
  decide

/-- Claim C3: sequence numbers are assigned during collection, in input order,
*before* the chronological sort; sorting then carries them along.  With two
geotagged photos whose capture times are in reverse input order, the collected
list is numbered `[1, 2]` but the chronologically sorted list shows numbers
`[2, 1]` — not the `[1, 2]` the claim (and the tool's own description,
"Number photos in chronological order") requires. -/
theorem C3_numbers_assigned_before_sort :
    ((sortPhotos (collectPhotos "/w" fsTour false nowFix itemsTour)).map
      (fun p => p.number)) = [2, 1] ∧
    ((collectPhotos "/w" fsTour false nowFix itemsTour).map
      (fun p => p.number)) = [1, 2] := by
  decide

/-- Claim C4, counterexample: `counter++` sits at the end of the `try` block,
after the rename; an item that ends in an `Error` outcome skips it.  A batch
of one item naming a missing file yields one (error) outcome, and the counter
stays at `counterStart` instead of advancing once per processed file. -/
theorem C4_error_item_skips_counter :
    (runRenameBatch cfgDry ∅ itemsMissing).results.length = 1 ∧
    (runRenameBatch cfgDry ∅ itemsMissing).counter ≠
      cfgDry.counterStart + itemsMissing.length := by
  decide

/-- Claim C4 (amended): the counter is incremented exactly once per item whose
outcome is a preview or a completed rename; items that end in an error (and
the stale `pending` outcome of a failed rename) do not consume a counter
value. -/
theorem C4_counter_counts_preview_and_renamed :
    ∀ cfg fs0 items, (runRenameBatch cfg fs0 items).counter =
      cfg.counterStart + ((runRenameBatch cfg fs0 items).results.filter isCounted).length := by
  intro cfg fs0 items
  have h := runRenameBatch_counter_aux cfg items
    { fs := fs0, counter := cfg.counterStart }
  simpa [runRenameBatch] using h

/-- Claim C5: the `parse_exif` case block never declares `safePath`, so the
call `exifr.parse(safePath, …)` throws a ReferenceError before the validator
or the extraction library can run; the top-level catch converts every
`parse_exif` invocation — valid image or not — into an error-flagged payload,
never a metadata report or a no-data notice. -/
theorem C5_parse_exif_always_error_payload :
    ∀ filepath options, parse_exif filepath options =
      { text := "Error: safePath is not defined", isError := true } :=
  fun _ _ => rfl

set_option maxRecDepth 40000 in
/-- Claim C6, counterexample: a camera string containing `<` is interpolated
verbatim into the placemark description (inside the CDATA block), so the
generated document contains the metacharacter literally and not its entity
form.  The claim that camera strings are escaped is therefore false. -/
theorem C6_camera_not_escaped :
    listIncludes ("Camera: A<B<br/>").data
      (generateKML [photoAngle] "T" "" false false).data = true ∧
    listIncludes ("A&lt;B").data
      (generateKML [photoAngle] "T" "" false false).data = false := by
  decide

/-- Claim C6 (amended): the tour title and the tour description are embedded
through `escapeXml`; the camera and lens strings are embedded verbatim
(unescaped) inside the CDATA description block. -/
theorem C6_escaping_title_not_camera :
    (∀ pd t d dp np, (kmlLines pd t d dp np)[3]? =
      some ("  <name>" ++ escapeXml t ++ "</name>")) ∧
    (∀ pd t d dp np, d ≠ "" → (kmlLines pd t d dp np)[4]? =
      some ("  <description>" ++ escapeXml d ++ "</description>")) ∧
    (∀ photo : TourPhoto, photo.camera ≠ "" → ∃ pre post,
      placemarkDesc photo = pre ++ ("Camera: " ++ photo.camera ++ "<br/>") ++ post) ∧
    (∀ photo : TourPhoto, photo.lens ≠ "" → ∃ pre post,
      placemarkDesc photo = pre ++ ("Lens: " ++ photo.lens ++ "<br/>") ++ post) :=
  ⟨fun pd t d dp np => kmlLines_name pd t d dp np,
   fun pd t d dp np hd => kmlLines_description pd t d dp np hd,
   placemarkDesc_camera_verbatim,
   placemarkDesc_lens_verbatim⟩

/-- Claim C6, witness: the amended theorem applied at concrete inputs. -/
theorem C6_witness :
    (kmlLines [] "t" "d" false false)[4]? =
      some ("  <description>" ++ escapeXml "d" ++ "</description>") ∧
    (∃ pre post, placemarkDesc photoAngle =
      pre ++ ("Camera: " ++ photoAngle.camera ++ "<br/>") ++ post) ∧
    (∃ pre post, placemarkDesc photoLensFix =
      pre ++ ("Lens: " ++ photoLensFix.lens ++ "<br/>") ++ post) :=
  ⟨C6_escaping_title_not_camera.2.1 [] "t" "d" false false (by decide),
   C6_escaping_title_not_camera.2.2.1 photoAngle (by decide),
   C6_escaping_title_not_camera.2.2.2 photoLensFix (by decide)⟩

/-- Claim C7, counterexample: when the archiver promise rejects, the `await`
throws past `removeDir(tempDir)` into the top-level catch, so the scratch
workspace is *not* deleted.  Cleanup is not unconditional. -/
theorem C7_failed_packaging_leaks_tempdir :
    (create_photo_tour_kmz "/w" fsTour nowFix argsTour false 0).tempDirCreated = true ∧
    (create_photo_tour_kmz "/w" fsTour nowFix argsTour false 0).tempDirRemoved = false := by
  decide

/-- Claim C7 (amended): whenever the scratch workspace was created, it is
removed exactly when the archive write succeeds; on packaging failure it is
left behind. -/
theorem C7_cleanup_only_after_success :
    ∀ cwd fs now args archiveOk sizeBytes,
      (create_photo_tour_kmz cwd fs now args archiveOk sizeBytes).tempDirCreated = true →
      (create_photo_tour_kmz cwd fs now args archiveOk sizeBytes).tempDirRemoved = archiveOk :=
  fun cwd fs now args archiveOk sizeBytes h =>
    tour_cleanup_aux cwd fs now args archiveOk sizeBytes h

/-- Claim C7, witness: the amended theorem applied at a concrete successful
packaging run. -/
theorem C7_witness :
    (create_photo_tour_kmz "/w" fsTour nowFix argsTour true 64).tempDirRemoved = true :=
  C7_cleanup_only_after_success "/w" fsTour nowFix argsTour true 64 (by decide)

/-- Claim C8, counterexample, in two parts.  Distinct-final-names clause: the
first chain item renames `/w/a.jpg` to `/w/p.jpg`; the second input is that
very path, renders the same name, self-collides and is reported `renamed`
with the same final name — two distinct successfully-renamed items of the
same directory share a final name.  Never-overwrites clause, on the default
`backup=true` commit: the first batch item's second hop fails after the first
hop moved `/w/d1/x.jpg` into the backup directory; the later same-basename
item's first hop then targets that occupied backup path and clobbers it
(the ghost overwrite flag is set, and of the two input files only one
survives anywhere on the filesystem). -/
theorem C8_name_clash_and_backup_overwrite :
    (((runRenameBatch cfgCam {"/w/a.jpg"} itemsChain).results.map
      (fun r => r.status)) = [.renamed, .renamed] ∧
    ((runRenameBatch cfgCam {"/w/a.jpg"} itemsChain).results.map
      (fun r => r.new)) = [some "p.jpg", some "p.jpg"] ∧
    (itemsChain.map (fun i => i.filepath)) = ["/w/a.jpg", "/w/p.jpg"] ∧
    dirname "/w/a.jpg" = dirname "/w/p.jpg") ∧
    (cfgBk.backup = true ∧
    (itemsBk.map (fun i => i.filepath)) = ["/w/d1/x.jpg", "/w/d2/x.jpg"] ∧
    (runRenameBatch cfgBk fsBk itemsBk).overwrote = true ∧
    (runRenameBatch cfgBk fsBk itemsBk).fs = {"/w/d2/p.jpg"}) := by
  decide

/-- Claim C8 (amended): with backup disabled (the direct-rename commit path),
no committed rename ever overwrites an existing file — every destination is
either absent from the filesystem at commit time or is the file's own current
path; and a self-collision commit leaves the filesystem unchanged (no rename
needed).  Both remaining clauses of the original claim fail: distinct
successfully-renamed items can share a final name, and the default
`backup=true` commit can overwrite (and lose) an existing file when a
mid-commit failure strands an original in the backup directory and a later
same-basename item's first hop lands on it — see the counterexample. -/
theorem C8_no_overwrite_and_self_collision :
    (∀ cfg fs0 items, cfg.backup = false →
      (runRenameBatch cfg fs0 items).overwrote = false) ∧
    (∀ (st : BatchState) (p : String), p ∈ st.fs → (doRename p p st).fs = st.fs) := by
  constructor
  · intro cfg fs0 items hb
    exact runRenameBatch_overwrote_aux cfg hb items _ rfl
  · intro st p hp
    simp [doRename, Finset.insert_erase hp]

/-- Claim C8, witness: the amended theorem applied at concrete inputs. -/
theorem C8_witness :
    (runRenameBatch cfgCam {"/w/a.jpg"} itemsChain).overwrote = false ∧
    (doRename "/w/a.jpg" "/w/a.jpg"
      { fs := {"/w/a.jpg"}, counter := 1 }).fs = {"/w/a.jpg"} :=
  ⟨C8_no_overwrite_and_self_collision.1 cfgCam {"/w/a.jpg"} itemsChain rfl,
   C8_no_overwrite_and_self_collision.2 { fs := {"/w/a.jpg"}, counter := 1 }
     "/w/a.jpg" (by decide)⟩

/-- Claim C9: the reply's altitude field is `gpsData.altitude || null`, so a
GPS record whose altitude is exactly 0 — or has no altitude — is reported
with a null altitude. -/
theorem C9_zero_altitude_reported_null :
    ∀ (cwd : String) (fs : Finset String) (filepath : String) (g : GpsData),
      (g.altitude = some 0 ∨ g.altitude = none) →
      ∀ fn c url, get_gps_coordinates cwd fs filepath (some g) = .coords fn c url →
        c.altitude = none :=
  fun cwd fs fp g hz => gps_alt_aux cwd fs fp g hz

/-- Claim C9, witness: the theorem applied at a concrete zero-altitude file. -/
theorem C9_witness : (⟨1, 2, none⟩ : GpsCoordinates).altitude = none :=
  C9_zero_altitude_reported_null "/w" {"/w/a.jpg"} "/w/a.jpg" ⟨1, 2, some 0⟩
    (Or.inl rfl) "a.jpg" ⟨1, 2, none⟩ "https://www.google.com/maps?q=1,2" (by decide)

/-- Claim C10: GPS presence is tested by truthiness
(`exifData && exifData.latitude && exifData.longitude`), and 0 is falsy, so a
photo whose latitude or longitude is exactly 0 is dropped from the tour
collection (removing it from the input changes nothing, numbering included),
and the rename engine's location/city/country values stay empty strings. -/
theorem C10_zero_coordinate_dropped :
    ∀ (env : TourItem) (e : ExifRec), env.parse = .ok (some e) →
      (e.latitude = some 0 ∨ e.longitude = some 0) →
      (∀ (cwd : String) (fs : Finset String) (incl : Bool) (now : DateRec)
        (pre post : List TourItem),
        collectPhotos cwd fs incl now (pre ++ env :: post) =
          collectPhotos cwd fs incl now (pre ++ post)) ∧
      locationTriple (some e) = ("", "", "") := by
  intro env e hp hz
  constructor
  · intro cwd fs incl now pre post
    unfold collectPhotos
    rw [List.foldl_append, List.foldl_append]
    simp only [List.foldl_cons]
    rw [collectStep_skip hp hz]
  · rcases hz with hz | hz
    all_goals simp [locationTriple, truthyRat, hz]

/-- Claim C10, witness: the theorem applied at a concrete zero-latitude file. -/
theorem C10_witness :
    collectPhotos "/w" {"/w/g.jpg"} false nowFix ([] ++ itemZeroLat :: []) =
      collectPhotos "/w" {"/w/g.jpg"} false nowFix ([] ++ []) ∧
    locationTriple (some recZeroLat) = ("", "", "") :=
  ⟨(C10_zero_coordinate_dropped itemZeroLat recZeroLat rfl (Or.inl rfl)).1
      "/w" {"/w/g.jpg"} false nowFix [] [],
   (C10_zero_coordinate_dropped itemZeroLat recZeroLat rfl (Or.inl rfl)).2⟩

end ExifMcp
